import Mathlib

/-!
Verification development for the incremental crawl-summary aggregation core
of the RustySEO repository.

The definitions below are a shallow embedding of
`src/app/global/_components/Sidebar/General/DropDowns/Summary.tsx`
(record schema, reducer, publish effect, summary rows) and of the
chat component's `clearChatHistory`.  JavaScript `Set` objects built by
inserting list elements in order are modelled as insertion-ordered
duplicate-free lists (`insertSet` / `toSet`); JavaScript numbers used as
indexability scores are modelled as exact rationals.
-/

namespace RustySEO

/-- Field `{ links?: string[] }` of the record schema. -/
structure LinksField where
  links : Option (List String)
deriving DecidableEq

/-- Field `anchor_links` of a crawl record.  The source field named
after "outward" links is called `external` in the TypeScript interface;
it is named `ext` here. -/
structure AnchorLinks where
  internal : Option LinksField
  ext : Option LinksField
deriving DecidableEq

/-- Field `{ indexability?: number }` of a crawl record. -/
structure IndexabilityField where
  indexability : Option ℚ
deriving DecidableEq

/-- `CrawlDataItem` from Summary.tsx: the per-page record handed to the
aggregation core by the crawler. -/
structure CrawlDataItem where
  anchor_links : Option AnchorLinks
  indexability : Option IndexabilityField
deriving DecidableEq

/-- `item?.anchor_links?.internal?.links` with an absent field
contributing the empty list (the `forEach` over `undefined` is a no-op). -/
def itemInternalLinks (item : CrawlDataItem) : List String :=
  (((item.anchor_links.bind AnchorLinks.internal).bind LinksField.links)).getD []

/-- `item?.anchor_links?.external?.links` with an absent field
contributing the empty list. -/
def itemExtLinks (item : CrawlDataItem) : List String :=
  (((item.anchor_links.bind AnchorLinks.ext).bind LinksField.links)).getD []

/-- `item?.indexability?.indexability || 0`: an absent indexability score
is treated as `0` (and a present score of `0` stays `0`). -/
def itemScore (item : CrawlDataItem) : ℚ :=
  ((item.indexability.bind IndexabilityField.indexability)).getD 0

/-- The numeric literal `0.5`, the reducer's indexability threshold. -/
def half : ℚ := mkRat 1 2

/-- The indexability test of the reducer:
`(item?.indexability?.indexability || 0) > 0.5`. -/
def isIndexable (item : CrawlDataItem) : Bool :=
  decide (half < itemScore item)

/-- `Set.add`: insert a string into an insertion-ordered duplicate-free
list, a no-op when the string is already present. -/
def insertSet (l : List String) (s : String) : List String :=
  if s ∈ l then l else l ++ [s]

/-- `new Set(xs)`: deduplicate a list keeping first occurrences in order. -/
def toSet (l : List String) : List String :=
  l.foldl insertSet []

/-- `State` of the `useReducer` hook in Summary.tsx.  The source field
holding the outward links is `externalLinks`; it is named `extLinks`. -/
structure State where
  internalLinks : List String
  extLinks : List String
  totalIndexablePages : ℕ
  isProcessing : Bool
deriving DecidableEq

/-- The reducer's action type; `UPDATE_DATA` is its only constructor. -/
inductive Action where
  | UPDATE_DATA (payload : List CrawlDataItem)

/-- `initialState` from Summary.tsx. -/
def initialState : State :=
  { internalLinks := []
  , extLinks := []
  , totalIndexablePages := 0
  , isProcessing := false }

/-- One iteration of the reducer's `for (const item of action.payload)`
loop, acting on the accumulators
`(internalLinksSet, externalLinksSet, totalIndexablePages)`. -/
def stepItem : List String × List String × ℕ → CrawlDataItem → List String × List String × ℕ
  | (iS, eS, n), item =>
    ( (itemInternalLinks item).foldl insertSet iS
    , (itemExtLinks item).foldl insertSet eS
    , if isIndexable item then n + 1 else n )

/-- The reducer from Summary.tsx: seed the two sets from the previous
state's link arrays, loop over the payload adding links and counting
indexable records (the count restarts at 0 each dispatch), and return
the new state with `isProcessing := false`. -/
def reducer (state : State) (action : Action) : State :=
  match action with
  | .UPDATE_DATA payload =>
    let r := payload.foldl stepItem (toSet state.internalLinks, toSet state.extLinks, 0)
    { internalLinks := r.1
    , extLinks := r.2.1
    , totalIndexablePages := r.2.2
    , isProcessing := false }

/-- The `SummaryView` record passed to `setSummary` (fields as spelled in
the source, including the `totaPagesCrawled` typo; the outward-link total
is `totalExternalLinks` in the source, named `totalExtLinks` here).
Fields are integers because `notIndexablePages` is a JavaScript
subtraction that can go below zero. -/
structure SummaryView where
  totaPagesCrawled : ℤ
  totalInternalLinks : ℤ
  totalExtLinks : ℤ
  totalLinksFound : ℤ
  notIndexablePages : ℤ
  indexablePages : ℤ
deriving DecidableEq

/-- The object built in the `setSummary` effect (Summary.tsx lines
109-121) from the reducer state and the current snapshot length. -/
def publishView (state : State) (crawlLen : ℕ) : SummaryView :=
  { totaPagesCrawled := crawlLen
  , totalInternalLinks := state.internalLinks.length
  , totalExtLinks := state.extLinks.length
  , totalLinksFound := state.internalLinks.length + state.extLinks.length
  , notIndexablePages := (crawlLen : ℤ) - state.totalIndexablePages
  , indexablePages := state.totalIndexablePages }

/-- `SummaryItem` from Summary.tsx: one display row.  The value is an
integer because the not-indexable row's value is a subtraction. -/
structure SummaryItem where
  label : String
  value : ℤ
  percentage : String
deriving DecidableEq, Inhabited

/-- `.toFixed(0)` on a non-integer-safe JavaScript number, modelled on
exact rationals: round to the nearest integer, ties to the larger
integer, then print. -/
def toFixed0 (x : ℚ) : String :=
  toString (Int.floor (x + 1 / 2))

/-- The percentage template `` `${((part / whole) * 100).toFixed(0)}%` ``
used by the four ratio rows of `summaryData`. -/
def jsPct (part : ℤ) (whole : ℕ) : String :=
  toFixed0 ((part : ℚ) / (whole : ℚ) * 100) ++ "%"

/-- `summaryData` from Summary.tsx (lines 140-184): the six display rows
built from the reducer state and the snapshot length.  A JavaScript
ternary `x ? a : b` on a number is `if x = 0 then b else a`. -/
def summaryData (state : State) (crawlLen : ℕ) : List SummaryItem :=
  let totalPagesCrawled : ℕ := crawlLen
  let totalNotIndexablePages : ℤ := (crawlLen : ℤ) - state.totalIndexablePages
  let totalLinks : ℕ := state.internalLinks.length + state.extLinks.length
  [ { label := "Pages crawled", value := totalPagesCrawled, percentage := "100%" }
  , { label := "Total Links Found", value := totalLinks, percentage := "100%" }
  , { label := "Total Internal Links"
    , value := state.internalLinks.length
    , percentage :=
        if totalLinks = 0 then "0%" else jsPct state.internalLinks.length totalLinks }
  , { label := "Total External Links"
    , value := state.extLinks.length
    , percentage :=
        if totalLinks = 0 then "0%" else jsPct state.extLinks.length totalLinks }
  , { label := "Total Indexable Pages"
    , value := state.totalIndexablePages
    , percentage :=
        if totalPagesCrawled = 0 then "0%"
        else jsPct state.totalIndexablePages totalPagesCrawled }
  , { label := "Total Not Indexable Pages"
    , value := totalNotIndexablePages
    , percentage :=
        if totalPagesCrawled = 0 then "0%"
        else jsPct totalNotIndexablePages totalPagesCrawled } ]

/-- The percentage exactly as the spec words it: `(part / whole) * 100`
rounded to the nearest whole percent (ties upward, as `.toFixed(0)`
breaks them), and a fixed `0%` whenever the denominator is `0`.  Stated
with natural-number arithmetic, to be compared with the source-derived
`jsPct`. -/
def specPct (part whole : ℕ) : String :=
  if whole = 0 then "0%"
  else toString (((200 * part + whole) / (2 * whole) : ℕ) : ℤ) ++ "%"

/-!
Trace model of the `Summary` component.  The component publishes through
the `setSummary` effect, which fires whenever the reducer state or the
memoized snapshot changes and is guarded by `if (!state.isProcessing)`;
the debounced dispatch folds the snapshot it was last called with, which
is the current snapshot.  An execution is a sequence of two kinds of
events: a snapshot change (publish immediately with the old aggregation
state) and a debounce firing (fold the current snapshot, then publish).
-/

/-- State of one mounted `Summary` component: the current snapshot, the
reducer state, and the log of views pushed through `setSummary`. -/
structure CompState where
  snapshot : List CrawlDataItem
  agg : State
  log : List SummaryView
deriving DecidableEq

/-- Events observable by the component: the crawl store replaces the
snapshot, or the pending debounced update fires. -/
inductive Ev where
  | snapChange (s : List CrawlDataItem)
  | foldFire

/-- One step of the component: a snapshot change re-runs the `setSummary`
effect with the unchanged reducer state and the new length; a debounce
firing dispatches `UPDATE_DATA` with the current snapshot and then
re-runs the effect with the folded state.  Both publications honour the
`if (!state.isProcessing)` guard. -/
def stepC (c : CompState) (e : Ev) : CompState :=
  match e with
  | .snapChange s =>
    { snapshot := s
    , agg := c.agg
    , log := if c.agg.isProcessing then c.log else c.log ++ [publishView c.agg s.length] }
  | .foldFire =>
    let a := reducer c.agg (.UPDATE_DATA c.snapshot)
    { snapshot := c.snapshot
    , agg := a
    , log := if a.isProcessing then c.log else c.log ++ [publishView a c.snapshot.length] }

/-- The component just after mounting with an empty crawl store: the
`setSummary` effect has run once on the initial state. -/
def initComp : CompState :=
  { snapshot := []
  , agg := initialState
  , log := if initialState.isProcessing then [] else [publishView initialState 0] }

/-- Run the component over a sequence of events. -/
def runC (evs : List Ev) : CompState :=
  evs.foldl stepC initComp

/-- A whole crawl session viewed as folds only: the reducer state after
dispatching `UPDATE_DATA` once per batch, starting from `initialState`. -/
def runFolds (batches : List (List CrawlDataItem)) : State :=
  batches.foldl (fun s b => reducer s (.UPDATE_DATA b)) initialState

/-- Modelled from the spec: the repository schedules folds with
`debounce(fn, 300)` from the lodash library, whose code is not part of
the repository.  Per spec section 4.2 this is a trailing-edge debounce:
a call fires its window later unless another call arrives strictly
inside the window, in which case it is cancelled and superseded.  Calls
are (time, snapshot-argument) pairs at distinct times; the result lists
the (firing time, dispatched snapshot) pairs. -/
def debounceFires (w : ℕ) (calls : List (ℕ × List CrawlDataItem)) :
    List (ℕ × List CrawlDataItem) :=
  (calls.filter (fun c =>
    calls.all (fun d => !(decide (c.1 < d.1) && decide (d.1 < c.1 + w))))).map
    (fun c => (c.1 + w, c.2))

/-- The quiescence window passed to `debounce` in Summary.tsx line 104. -/
def debounceWindow : ℕ := 300

/-- `Message.role` from the chat component (`"user" | "assistant"`). -/
inductive Role where
  | user
  | assistant
deriving DecidableEq

/-- `Message` from the chat component in `src/unnamed/part_000`. -/
structure Message where
  id : ℤ
  role : Role
  content : String
deriving DecidableEq

/-- `clearChatHistory` from the chat component: drops the stored
messages and sets the message list to empty. -/
def clearChatHistory : List Message → List Message :=
  fun _ => []

/-- The application state relevant to clearing history: the chat message
list together with a mounted `Summary` component. -/
structure AppState where
  messages : List Message
  comp : CompState
deriving DecidableEq

/-- Pressing "Clear chat history": `clearChatHistory` runs; the
`Summary` component is not involved and keeps its state and log. -/
def clearChatStep (a : AppState) : AppState :=
  { messages := clearChatHistory a.messages, comp := a.comp }

/-! Concrete demonstration data used by witnesses and counterexamples. -/

/-- Build a crawl record with the given links and optional score. -/
def mkItem (ils exls : List String) (score : Option ℚ) : CrawlDataItem :=
  { anchor_links := some { internal := some { links := some ils }
                         , ext := some { links := some exls } }
  , indexability := some { indexability := score } }

/-- Two pages, each with one internal link and score 0.9. -/
def demoSnap : List CrawlDataItem :=
  [ mkItem ["/a"] [] (some (mkRat 9 10))
  , mkItem ["/b"] [] (some (mkRat 9 10)) ]

/-- Growing snapshots for the debounce scenario. -/
def demoSnap1 : List CrawlDataItem := [mkItem ["/a"] [] none]

/-- Second debounce-scenario snapshot. -/
def demoSnap2 : List CrawlDataItem := demoSnap1 ++ [mkItem ["/b"] [] none]

/-- Third debounce-scenario snapshot. -/
def demoSnap3 : List CrawlDataItem := demoSnap2 ++ [mkItem ["/c"] [] none]

/-- The debounce scenario of the spec: signals at t = 0, 50, 100, 150,
each passing the snapshot as it stood at that time. -/
def demoCalls : List (ℕ × List CrawlDataItem) :=
  [(0, []), (50, demoSnap1), (100, demoSnap2), (150, demoSnap3)]

/-! Helper lemmas about the set model. -/

/-- Membership after a single insertion. -/
theorem mem_insertSet {a s : String} {l : List String} :
    a ∈ insertSet l s ↔ a ∈ l ∨ a = s := by
  unfold insertSet
  by_cases h : s ∈ l
  · simp only [if_pos h]
    constructor
    · exact Or.inl
    · rintro (ha | rfl)
      · exact ha
      · exact h
  · simp [if_neg h]

/-- Insertion never shortens the list. -/
theorem length_insertSet (l : List String) (s : String) :
    l.length ≤ (insertSet l s).length := by
  unfold insertSet
  by_cases h : s ∈ l <;> simp [h]

/-- Insertion preserves freedom from duplicates. -/
theorem nodup_insertSet {l : List String} (s : String) (h : l.Nodup) :
    (insertSet l s).Nodup := by
  unfold insertSet
  by_cases hs : s ∈ l
  · simpa [hs]
  · simp [hs, List.nodup_append, h]

/-- Membership after inserting a whole list of strings. -/
theorem mem_foldl_insertSet (xs : List String) :
    ∀ (acc : List String) (a : String),
      a ∈ xs.foldl insertSet acc ↔ a ∈ acc ∨ a ∈ xs := by
  induction xs with
  | nil => simp
  | cons x xs ih =>
    intro acc a
    simp only [List.foldl_cons, ih, mem_insertSet, List.mem_cons]
    tauto

/-- Inserting a list of strings never shortens the accumulator. -/
theorem length_foldl_insertSet (xs : List String) :
    ∀ acc : List String, acc.length ≤ (xs.foldl insertSet acc).length := by
  induction xs with
  | nil => simp
  | cons x xs ih =>
    intro acc
    exact le_trans (length_insertSet acc x) (ih (insertSet acc x))

/-- Inserting a list of strings preserves freedom from duplicates. -/
theorem nodup_foldl_insertSet (xs : List String) :
    ∀ acc : List String, acc.Nodup → (xs.foldl insertSet acc).Nodup := by
  induction xs with
  | nil => exact fun acc h => h
  | cons x xs ih =>
    intro acc h
    exact ih (insertSet acc x) (nodup_insertSet x h)

/-- `new Set(xs)` keeps exactly the members of `xs`. -/
theorem mem_toSet {a : String} {l : List String} : a ∈ toSet l ↔ a ∈ l := by
  unfold toSet
  rw [mem_foldl_insertSet]
  simp

/-- `new Set(xs)` is duplicate-free. -/
theorem toSet_nodup (l : List String) : (toSet l).Nodup :=
  nodup_foldl_insertSet l [] List.nodup_nil

/-- Inserting a duplicate-free, disjoint list appends it. -/
theorem foldl_insertSet_append (l : List String) :
    ∀ acc : List String, l.Nodup → (∀ a ∈ l, a ∉ acc) →
      l.foldl insertSet acc = acc ++ l := by
  induction l with
  | nil => simp
  | cons x xs ih =>
    intro acc hnd hdis
    have hx : x ∉ acc := hdis x (List.mem_cons_self x xs)
    have h1 : insertSet acc x = acc ++ [x] := by simp [insertSet, hx]
    rw [List.foldl_cons, h1, ih (acc ++ [x]) hnd.of_cons]
    · simp
    · intro a ha
      simp only [List.mem_append, List.mem_singleton]
      rintro (h | rfl)
      · exact hdis a (List.mem_cons_of_mem x ha) h
      · exact (List.nodup_cons.mp hnd).1 ha

/-- Deduplicating a duplicate-free list is the identity. -/
theorem toSet_of_nodup {l : List String} (h : l.Nodup) : toSet l = l := by
  unfold toSet
  rw [foldl_insertSet_append l [] h (by simp)]
  simp

/-- Deduplication is idempotent. -/
theorem toSet_toSet (l : List String) : toSet (toSet l) = toSet l :=
  toSet_of_nodup (toSet_nodup l)

/-- The link-set accumulation pattern of the reducer loop: add the links
extracted by `f` from every payload record to the accumulator. -/
def addLinks (f : CrawlDataItem → List String) (acc : List String)
    (payload : List CrawlDataItem) : List String :=
  payload.foldl (fun s it => (f it).foldl insertSet s) acc

/-- `addLinks` on an empty payload. -/
theorem addLinks_nil (f : CrawlDataItem → List String) (acc : List String) :
    addLinks f acc [] = acc := rfl

/-- Membership in the accumulated link set. -/
theorem mem_addLinks (f : CrawlDataItem → List String)
    (payload : List CrawlDataItem) :
    ∀ (acc : List String) (a : String),
      a ∈ addLinks f acc payload ↔ a ∈ acc ∨ ∃ it ∈ payload, a ∈ f it := by
  induction payload with
  | nil => simp [addLinks]
  | cons x xs ih =>
    intro acc a
    show a ∈ addLinks f ((f x).foldl insertSet acc) xs ↔ _
    rw [ih, mem_foldl_insertSet]
    simp only [List.mem_cons]
    constructor
    · rintro ((h | h) | ⟨it, hit, hfa⟩)
      · exact Or.inl h
      · exact Or.inr ⟨x, Or.inl rfl, h⟩
      · exact Or.inr ⟨it, Or.inr hit, hfa⟩
    · rintro (h | ⟨it, (rfl | hit), hfa⟩)
      · exact Or.inl (Or.inl h)
      · exact Or.inl (Or.inr hfa)
      · exact Or.inr ⟨it, hit, hfa⟩

/-- Accumulating links never shortens the accumulator. -/
theorem length_addLinks (f : CrawlDataItem → List String)
    (payload : List CrawlDataItem) :
    ∀ acc : List String, acc.length ≤ (addLinks f acc payload).length := by
  induction payload with
  | nil => simp [addLinks]
  | cons x xs ih =>
    intro acc
    exact le_trans (length_foldl_insertSet (f x) acc) (ih ((f x).foldl insertSet acc))

/-- Accumulating links preserves freedom from duplicates. -/
theorem nodup_addLinks (f : CrawlDataItem → List String)
    (payload : List CrawlDataItem) :
    ∀ acc : List String, acc.Nodup → (addLinks f acc payload).Nodup := by
  induction payload with
  | nil => exact fun acc h => h
  | cons x xs ih =>
    intro acc h
    exact ih ((f x).foldl insertSet acc) (nodup_foldl_insertSet (f x) acc h)

/-- The reducer loop splits into its three independent accumulators. -/
theorem foldl_stepItem_decomp (payload : List CrawlDataItem) :
    ∀ (iS eS : List String) (n : ℕ),
      payload.foldl stepItem (iS, eS, n)
        = ( addLinks itemInternalLinks iS payload
          , addLinks itemExtLinks eS payload
          , n + payload.countP isIndexable ) := by
  induction payload with
  | nil => simp [addLinks]
  | cons x xs ih =>
    intro iS eS n
    rw [List.foldl_cons]
    show xs.foldl stepItem
        ( (itemInternalLinks x).foldl insertSet iS
        , (itemExtLinks x).foldl insertSet eS
        , if isIndexable x then n + 1 else n ) = _
    rw [ih]
    refine Prod.ext rfl (Prod.ext rfl ?_)
    rw [List.countP_cons]
    by_cases hx : isIndexable x = true
    · simp only [if_pos hx]
      omega
    · simp only [if_neg hx]
      omega

/-- The internal link set produced by one dispatch. -/
theorem reducer_internal (S : State) (payload : List CrawlDataItem) :
    (reducer S (.UPDATE_DATA payload)).internalLinks
      = addLinks itemInternalLinks (toSet S.internalLinks) payload := by
  show (payload.foldl stepItem (toSet S.internalLinks, toSet S.extLinks, 0)).1 = _
  rw [foldl_stepItem_decomp]

/-- The outward link set produced by one dispatch. -/
theorem reducer_ext (S : State) (payload : List CrawlDataItem) :
    (reducer S (.UPDATE_DATA payload)).extLinks
      = addLinks itemExtLinks (toSet S.extLinks) payload := by
  show (payload.foldl stepItem (toSet S.internalLinks, toSet S.extLinks, 0)).2.1 = _
  rw [foldl_stepItem_decomp]

/-- The indexable-page count produced by one dispatch: it is recomputed
from the payload alone. -/
theorem reducer_count (S : State) (payload : List CrawlDataItem) :
    (reducer S (.UPDATE_DATA payload)).totalIndexablePages
      = payload.countP isIndexable := by
  show (payload.foldl stepItem (toSet S.internalLinks, toSet S.extLinks, 0)).2.2 = _
  rw [foldl_stepItem_decomp]
  simp

/-- The reducer always returns with `isProcessing := false`. -/
theorem reducer_isProcessing (S : State) (payload : List CrawlDataItem) :
    (reducer S (.UPDATE_DATA payload)).isProcessing = false := rfl

/-- The reducer's output, written as an explicit record. -/
theorem reducer_eq_mk (S : State) (payload : List CrawlDataItem) :
    reducer S (.UPDATE_DATA payload)
      = { internalLinks := addLinks itemInternalLinks (toSet S.internalLinks) payload
        , extLinks := addLinks itemExtLinks (toSet S.extLinks) payload
        , totalIndexablePages := payload.countP isIndexable
        , isProcessing := false } := by
  show ({ internalLinks := (payload.foldl stepItem (toSet S.internalLinks, toSet S.extLinks, 0)).1
        , extLinks := (payload.foldl stepItem (toSet S.internalLinks, toSet S.extLinks, 0)).2.1
        , totalIndexablePages := (payload.foldl stepItem (toSet S.internalLinks, toSet S.extLinks, 0)).2.2
        , isProcessing := false } : State) = _
  rw [foldl_stepItem_decomp]
  simp

/-- States reached by folding batches from the initial state have
duplicate-free link lists. -/
theorem runFolds_aux_nodup (batches : List (List CrawlDataItem)) :
    ∀ S : State, S.internalLinks.Nodup → S.extLinks.Nodup →
      (batches.foldl (fun s b => reducer s (.UPDATE_DATA b)) S).internalLinks.Nodup
      ∧ (batches.foldl (fun s b => reducer s (.UPDATE_DATA b)) S).extLinks.Nodup := by
  induction batches with
  | nil => exact fun S h1 h2 => ⟨h1, h2⟩
  | cons b bs ih =>
    intro S h1 h2
    refine ih (reducer S (.UPDATE_DATA b)) ?_ ?_
    · rw [reducer_internal]
      exact nodup_addLinks _ _ _ (toSet_nodup _)
    · rw [reducer_ext]
      exact nodup_addLinks _ _ _ (toSet_nodup _)

/-- The link lists of any state of a fold session are duplicate-free. -/
theorem runFolds_nodup (batches : List (List CrawlDataItem)) :
    (runFolds batches).internalLinks.Nodup ∧ (runFolds batches).extLinks.Nodup :=
  runFolds_aux_nodup batches initialState List.nodup_nil List.nodup_nil

/-- The "Processing..." indicator of the JSX renders exactly when
`state.isProcessing` is true. -/
def processingShown (c : CompState) : Bool :=
  c.agg.isProcessing

/-! Claim theorems. -/

/-- C2, counterexample: folding an empty batch does NOT leave every state
unchanged — the reducer recomputes the indexable-page count from the
batch alone, so a state with a nonzero count (reachable by folding one
indexable record) is reset to count 0 by an empty dispatch. -/
theorem empty_fold_changes_state :
    reducer { internalLinks := [], extLinks := [], totalIndexablePages := 1, isProcessing := false }
        (.UPDATE_DATA [])
      ≠ { internalLinks := [], extLinks := [], totalIndexablePages := 1, isProcessing := false } := by
  decide

/-- C2, amended: folding an empty batch is idempotent
(`fold(fold(S, []), []) = fold(S, [])`), and `fold(S, [])` preserves the
membership of both link sets, but it resets the indexable-page count to
0 rather than preserving it. -/
theorem empty_fold_idempotent (S : State) :
    reducer (reducer S (.UPDATE_DATA [])) (.UPDATE_DATA []) = reducer S (.UPDATE_DATA [])
    ∧ (∀ a : String, a ∈ (reducer S (.UPDATE_DATA [])).internalLinks ↔ a ∈ S.internalLinks)
    ∧ (∀ a : String, a ∈ (reducer S (.UPDATE_DATA [])).extLinks ↔ a ∈ S.extLinks)
    ∧ (reducer S (.UPDATE_DATA [])).totalIndexablePages = 0 := by
  refine ⟨?_, ?_, ?_, ?_⟩
  · simp [reducer_eq_mk, addLinks_nil, toSet_toSet]
  · intro a
    rw [reducer_internal, addLinks_nil, mem_toSet]
  · intro a
    rw [reducer_ext, addLinks_nil, mem_toSet]
  · rw [reducer_count]
    rfl

/-- C4: the dispatch counts exactly the payload records whose
indexability score is strictly greater than 0.5; a record with score
exactly 0.5 is not counted, one with score 0.5001 is counted, and a
record with an absent score is treated as score 0 and not counted. -/
theorem indexable_threshold_strict :
    (∀ (S : State) (payload : List CrawlDataItem),
        (reducer S (.UPDATE_DATA payload)).totalIndexablePages = payload.countP isIndexable)
    ∧ (∀ it : CrawlDataItem, isIndexable it = true ↔ half < itemScore it)
    ∧ (reducer initialState (.UPDATE_DATA [mkItem [] [] (some (mkRat 1 2))])).totalIndexablePages = 0
    ∧ (reducer initialState (.UPDATE_DATA [mkItem [] [] (some (mkRat 5001 10000))])).totalIndexablePages = 1
    ∧ (reducer initialState (.UPDATE_DATA [mkItem [] [] none])).totalIndexablePages = 0
    ∧ itemScore (mkItem [] [] none) = 0 := by
  refine ⟨fun S payload => reducer_count S payload, ?_, by decide, by decide, by decide, by decide⟩
  intro it
  simp [isIndexable]

/-- C5, counterexample: the fold is NOT a function of the snapshot
alone — folding the same (empty) snapshot into two different prior
states yields different link sets, because the reducer unions the
payload links into the prior state's sets. -/
theorem fold_not_snapshot_determined :
    (reducer { internalLinks := ["/x"], extLinks := [], totalIndexablePages := 0, isProcessing := false }
        (.UPDATE_DATA [])).internalLinks
      ≠ (reducer initialState (.UPDATE_DATA [])).internalLinks := by
  decide

/-- C5, amended: the fold is deterministic as a pure function of the
prior state and the batch; the indexable-page count of the result
depends on the batch alone, while each link set of the result holds
exactly the prior state's links together with the batch's links, and so
depends on the prior state. -/
theorem fold_determinism_characterization (S1 S2 S : State)
    (payload : List CrawlDataItem) (a : String) :
    (reducer S1 (.UPDATE_DATA payload)).totalIndexablePages
        = (reducer S2 (.UPDATE_DATA payload)).totalIndexablePages
    ∧ (a ∈ (reducer S (.UPDATE_DATA payload)).internalLinks
        ↔ a ∈ S.internalLinks ∨ ∃ it ∈ payload, a ∈ itemInternalLinks it)
    ∧ (a ∈ (reducer S (.UPDATE_DATA payload)).extLinks
        ↔ a ∈ S.extLinks ∨ ∃ it ∈ payload, a ∈ itemExtLinks it) := by
  refine ⟨by rw [reducer_count, reducer_count], ?_, ?_⟩
  · rw [reducer_internal, mem_addLinks, mem_toSet]
  · rw [reducer_ext, mem_addLinks, mem_toSet]

/-- C7: over any fold session from the initial state, one more fold
preserves every URL already in either link set and never decreases
either link-set size. -/
theorem link_sets_monotone (batches : List (List CrawlDataItem))
    (batch : List CrawlDataItem) :
    (∀ a : String, a ∈ (runFolds batches).internalLinks →
        a ∈ (reducer (runFolds batches) (.UPDATE_DATA batch)).internalLinks)
    ∧ (∀ a : String, a ∈ (runFolds batches).extLinks →
        a ∈ (reducer (runFolds batches) (.UPDATE_DATA batch)).extLinks)
    ∧ (runFolds batches).internalLinks.length
        ≤ (reducer (runFolds batches) (.UPDATE_DATA batch)).internalLinks.length
    ∧ (runFolds batches).extLinks.length
        ≤ (reducer (runFolds batches) (.UPDATE_DATA batch)).extLinks.length := by
  obtain ⟨h1, h2⟩ := runFolds_nodup batches
  refine ⟨?_, ?_, ?_, ?_⟩
  · intro a ha
    rw [reducer_internal, mem_addLinks]
    exact Or.inl (mem_toSet.mpr ha)
  · intro a ha
    rw [reducer_ext, mem_addLinks]
    exact Or.inl (mem_toSet.mpr ha)
  · rw [reducer_internal, toSet_of_nodup h1]
    exact length_addLinks _ _ _
  · rw [reducer_ext, toSet_of_nodup h2]
    exact length_addLinks _ _ _

/-- A one-batch session used to exercise `link_sets_monotone`. -/
def demoBatchA : List CrawlDataItem := [mkItem ["/a"] [] none]

/-- Witness for C7 at a concrete session. -/
theorem link_sets_monotone_witness :
    "/a" ∈ (runFolds [demoBatchA]).internalLinks
    ∧ "/a" ∈ (reducer (runFolds [demoBatchA]) (.UPDATE_DATA [])).internalLinks :=
  ⟨by decide, (link_sets_monotone [demoBatchA] []).1 "/a" (by decide)⟩

/-- The auxiliary invariant behind C10: no event sequence ever sets the
processing flag. -/
theorem runC_isProcessing_aux (evs : List Ev) :
    ∀ c : CompState, c.agg.isProcessing = false →
      (evs.foldl stepC c).agg.isProcessing = false := by
  induction evs with
  | nil => exact fun c h => h
  | cons e es ih =>
    intro c h
    refine ih (stepC c e) ?_
    cases e with
    | snapChange s => exact h
    | foldFire => exact reducer_isProcessing _ _

/-- C10: in every reachable component state the `isProcessing` flag is
false, so the "Processing..." indicator is never shown and the
`if (!state.isProcessing)` publish guard never blocks — every event
appends exactly one published view. -/
theorem isProcessing_always_false (evs : List Ev) :
    (runC evs).agg.isProcessing = false
    ∧ processingShown (runC evs) = false
    ∧ ∀ e : Ev, (stepC (runC evs) e).log.length = (runC evs).log.length + 1 := by
  have h : (runC evs).agg.isProcessing = false := runC_isProcessing_aux evs initComp rfl
  refine ⟨h, h, ?_⟩
  intro e
  cases e with
  | snapChange s => simp [stepC, h]
  | foldFire => simp [stepC, reducer_isProcessing]

/-- C1, counterexample: the view published right after a snapshot change
(trace: mount, then the two-page snapshot arrives) reports the new
snapshot length with the link and indexability counts of the previous
fold; it is not derivable from any completed fold over the current
snapshot, whatever prior state that fold started from. -/
theorem publish_precedes_fold_counterexample :
    (publishView initialState demoSnap.length) ∈ (runC [Ev.snapChange demoSnap]).log
    ∧ (publishView initialState demoSnap.length).totaPagesCrawled = 2
    ∧ ¬ ∃ prior : State,
        publishView initialState demoSnap.length
          = publishView (reducer prior (.UPDATE_DATA demoSnap)) demoSnap.length := by
  refine ⟨by decide, by decide, ?_⟩
  rintro ⟨prior, h⟩
  have hidx : (publishView initialState demoSnap.length).indexablePages
      = (publishView (reducer prior (.UPDATE_DATA demoSnap)) demoSnap.length).indexablePages := by
    rw [h]
  have h2 : (publishView (reducer prior (.UPDATE_DATA demoSnap)) demoSnap.length).indexablePages
      = 2 := by
    show ((reducer prior (.UPDATE_DATA demoSnap)).totalIndexablePages : ℤ) = 2
    rw [reducer_count]
    norm_num [show demoSnap.countP isIndexable = 2 from by decide]
  rw [h2] at hidx
  exact absurd hidx (by decide)

/-- C1, amended: a fold completion publishes exactly one view, derived
from the state of that completed fold and the snapshot it folded; but a
snapshot change also publishes immediately — before the fold it
schedules — a view pairing the new snapshot length with the previous
fold's state. -/
theorem publication_characterization (c : CompState) (s : List CrawlDataItem) :
    (stepC c Ev.foldFire).log
        = c.log ++ [publishView (reducer c.agg (.UPDATE_DATA c.snapshot)) c.snapshot.length]
    ∧ (c.agg.isProcessing = false →
        (stepC c (Ev.snapChange s)).log = c.log ++ [publishView c.agg s.length]) := by
  constructor
  · simp [stepC, reducer_isProcessing]
  · intro h
    simp [stepC, h]

/-- Witness for C1's amended theorem at a concrete component state. -/
theorem publication_characterization_witness :
    initComp.agg.isProcessing = false
    ∧ (stepC initComp (Ev.snapChange demoSnap)).log
        = initComp.log ++ [publishView initComp.agg demoSnap.length] :=
  ⟨rfl, (publication_characterization initComp demoSnap).2 rfl⟩

/-- C3, counterexample: in the trace "two-page snapshot arrives, the
debounced fold fires, the snapshot is replaced by an empty one", the
fourth published view has `notIndexablePages = 0 - 2 = -2`, a negative
value. -/
theorem negative_notIndexable_counterexample :
    (runC [Ev.snapChange demoSnap, Ev.foldFire, Ev.snapChange []]).log.length = 4
    ∧ ((runC [Ev.snapChange demoSnap, Ev.foldFire, Ev.snapChange []]).log.getD 3
        (publishView initialState 0)).notIndexablePages = -2 := by
  refine ⟨by decide, by decide⟩

/-- C3, amended: every field of a published view is non-negative except
`notIndexablePages`, which is non-negative whenever the view is
published at a fold completion (paired with the length of the very
snapshot the fold consumed); only views published between a snapshot
shrink and the next fold completion can carry a negative value. -/
theorem published_fields_nonneg (S : State) (payload : List CrawlDataItem) (len : ℕ) :
    0 ≤ (publishView S len).totaPagesCrawled
    ∧ 0 ≤ (publishView S len).totalInternalLinks
    ∧ 0 ≤ (publishView S len).totalExtLinks
    ∧ 0 ≤ (publishView S len).totalLinksFound
    ∧ 0 ≤ (publishView S len).indexablePages
    ∧ 0 ≤ (publishView (reducer S (.UPDATE_DATA payload)) payload.length).notIndexablePages := by
  refine ⟨Int.natCast_nonneg _, Int.natCast_nonneg _, Int.natCast_nonneg _, ?_, Int.natCast_nonneg _, ?_⟩
  · exact add_nonneg (Int.natCast_nonneg _) (Int.natCast_nonneg _)
  · show 0 ≤ (payload.length : ℤ) - (reducer S (.UPDATE_DATA payload)).totalIndexablePages
    rw [reducer_count]
    have h := payload.countP_le_length isIndexable
    omega

/-- The application state used by the C6 counterexample: one stored chat
message next to a component that has folded the two-page snapshot. -/
def demoApp : AppState :=
  { messages := [{ id := 1, role := Role.user, content := "hi" }]
  , comp := runC [Ev.snapChange demoSnap, Ev.foldFire] }

/-- C6, counterexample: the repository's clear-history operation
(`clearChatHistory`, in the AI-chat component) empties the chat message
list but neither resets the aggregation state (the link set stays
`["/a", "/b"]`) nor publishes any SummaryView (the log is unchanged) —
it is not a reset of the aggregation core. -/
theorem clearChatHistory_not_aggregation_reset :
    (clearChatStep demoApp).messages = []
    ∧ (clearChatStep demoApp).comp.agg.internalLinks = ["/a", "/b"]
    ∧ (clearChatStep demoApp).comp.agg ≠ initialState
    ∧ (clearChatStep demoApp).comp.log = demoApp.comp.log := by
  refine ⟨rfl, by decide, by decide, rfl⟩

/-- C6, amended: the only clear-history operation in the repository
resets the chat message list and leaves the summary component
untouched; the aggregation core itself has no reset — its initial state
publishes the all-zero SummaryView, and its only action never removes a
URL from either link set. -/
theorem clear_and_reset_behavior :
    (∀ a : AppState, (clearChatStep a).messages = [] ∧ (clearChatStep a).comp = a.comp)
    ∧ publishView initialState 0
        = { totaPagesCrawled := 0, totalInternalLinks := 0, totalExtLinks := 0
          , totalLinksFound := 0, notIndexablePages := 0, indexablePages := 0 }
    ∧ initComp.log = [publishView initialState 0]
    ∧ (∀ (S : State) (payload : List CrawlDataItem) (a : String),
        (a ∈ S.internalLinks → a ∈ (reducer S (.UPDATE_DATA payload)).internalLinks)
        ∧ (a ∈ S.extLinks → a ∈ (reducer S (.UPDATE_DATA payload)).extLinks)) := by
  refine ⟨fun a => ⟨rfl, rfl⟩, by decide, rfl, ?_⟩
  intro S payload a
  constructor
  · intro ha
    rw [reducer_internal, mem_addLinks]
    exact Or.inl (mem_toSet.mpr ha)
  · intro ha
    rw [reducer_ext, mem_addLinks]
    exact Or.inl (mem_toSet.mpr ha)

/-- Witness for C6's amended theorem at a concrete state. -/
theorem clear_and_reset_behavior_witness :
    "/a" ∈ (State.mk ["/a"] [] 0 false).internalLinks
    ∧ "/a" ∈ (reducer (State.mk ["/a"] [] 0 false) (.UPDATE_DATA [])).internalLinks :=
  ⟨by decide,
   (clear_and_reset_behavior.2.2.2 (State.mk ["/a"] [] 0 false) [] "/a").1 (by decide)⟩

/-- The `.toFixed(0)` percentage of the source equals the spec's
rounded-to-nearest-percent value whenever the denominator is nonzero. -/
theorem jsPct_eq_specPct (p w : ℕ) (hw : w ≠ 0) :
    jsPct (p : ℤ) w = specPct p w := by
  unfold jsPct toFixed0 specPct
  rw [if_neg hw]
  refine congrArg (fun s => s ++ "%") (congrArg toString ?_)
  have hw' : (w : ℚ) ≠ 0 := Nat.cast_ne_zero.mpr hw
  have hx : ((p : ℤ) : ℚ) / (w : ℚ) * 100 + 1 / 2
      = ((200 * p + w : ℕ) : ℚ) / ((2 * w : ℕ) : ℚ) := by
    push_cast
    field_simp
    ring
  rw [hx, ← Int.natCast_floor_eq_floor (by positivity), Nat.floor_div_eq_div]

/-- C8: each of the four computed ratio rows displays the spec's
percentage — `(part / whole) * 100` rounded to the nearest whole percent
(ties upward, as `.toFixed(0)` breaks them) — and displays exactly `0%`
whenever its denominator is zero; the not-indexable row agrees whenever
its part is non-negative, and is `0%` whenever no page was crawled. -/
theorem percentage_rows_spec (S : State) (len : ℕ) :
    ((summaryData S len).getD 2 default).percentage
        = specPct S.internalLinks.length (S.internalLinks.length + S.extLinks.length)
    ∧ ((summaryData S len).getD 3 default).percentage
        = specPct S.extLinks.length (S.internalLinks.length + S.extLinks.length)
    ∧ ((summaryData S len).getD 4 default).percentage = specPct S.totalIndexablePages len
    ∧ (S.totalIndexablePages ≤ len →
        ((summaryData S len).getD 5 default).percentage
          = specPct (len - S.totalIndexablePages) len)
    ∧ (len = 0 → ((summaryData S len).getD 5 default).percentage = "0%") := by
  refine ⟨?_, ?_, ?_, ?_, ?_⟩
  · show (if S.internalLinks.length + S.extLinks.length = 0 then "0%"
        else jsPct S.internalLinks.length (S.internalLinks.length + S.extLinks.length)) = _
    by_cases h : S.internalLinks.length + S.extLinks.length = 0
    · rw [if_pos h, h]
      rfl
    · rw [if_neg h, jsPct_eq_specPct _ _ h]
  · show (if S.internalLinks.length + S.extLinks.length = 0 then "0%"
        else jsPct S.extLinks.length (S.internalLinks.length + S.extLinks.length)) = _
    by_cases h : S.internalLinks.length + S.extLinks.length = 0
    · rw [if_pos h, h]
      rfl
    · rw [if_neg h, jsPct_eq_specPct _ _ h]
  · show (if len = 0 then "0%" else jsPct S.totalIndexablePages len) = _
    by_cases h : len = 0
    · rw [if_pos h, h]
      rfl
    · rw [if_neg h, jsPct_eq_specPct _ _ h]
  · intro hle
    show (if len = 0 then "0%"
        else jsPct ((len : ℤ) - S.totalIndexablePages) len) = _
    by_cases h : len = 0
    · rw [if_pos h, h]
      rfl
    · rw [if_neg h]
      rw [show (len : ℤ) - S.totalIndexablePages = ((len - S.totalIndexablePages : ℕ) : ℤ) by omega]
      exact jsPct_eq_specPct _ _ h
  · intro h
    show (if len = 0 then "0%" else jsPct ((len : ℤ) - S.totalIndexablePages) len) = _
    rw [if_pos h]

/-- Witness for C8 at a concrete (empty) state and snapshot. -/
theorem percentage_rows_spec_witness :
    ((summaryData initialState 0).getD 5 default).percentage = specPct 0 0
    ∧ ((summaryData initialState 0).getD 5 default).percentage = "0%" :=
  ⟨(percentage_rows_spec initialState 0).2.2.2.1 (by decide),
   (percentage_rows_spec initialState 0).2.2.2.2 rfl⟩

/-- C9: with the source's window of 300 time units, signals at
t = 0, 50, 100, 150 followed by silence produce exactly one fold, firing
at t = 450 with the snapshot passed by the t = 150 signal (the latest
one); and in general the latest call of any stream always fires — the
final fold is never dropped. -/
theorem debounce_coalesces_and_keeps_final (w : ℕ)
    (calls : List (ℕ × List CrawlDataItem)) (m : ℕ × List CrawlDataItem) :
    debounceFires debounceWindow demoCalls = [(450, demoSnap3)]
    ∧ (m ∈ calls → (∀ d ∈ calls, d.1 ≤ m.1) →
        (m.1 + w, m.2) ∈ debounceFires w calls) := by
  constructor
  · decide
  · intro hm hmax
    unfold debounceFires
    refine List.mem_map.mpr ⟨m, ?_, rfl⟩
    refine List.mem_filter.mpr ⟨hm, ?_⟩
    rw [List.all_eq_true]
    intro d hd
    have h1 : decide (m.1 < d.1) = false := decide_eq_false (not_lt.mpr (hmax d hd))
    simp [h1]

/-- Witness for C9: the last signal of the demo stream fires. -/
theorem debounce_coalesces_and_keeps_final_witness :
    (150, demoSnap3) ∈ demoCalls
    ∧ (150 + 300, demoSnap3) ∈ debounceFires 300 demoCalls :=
  ⟨by decide,
   (debounce_coalesces_and_keeps_final 300 demoCalls (150, demoSnap3)).2 (by decide) (by decide)⟩

end RustySEO
